import Mathlib

/-!
Verification of the Fluer-Fragrances storefront backend
(`src/backend/server.py`) against its natural-language specification.

The development shallowly embeds the payment/order reconciliation flow,
the cart mutation routes, the checkout-initiation routes and the
review-rating aggregation route.  Documents of the Mongo store become
Lean structures; a `DB` value is the whole store; `find_one` becomes
`List.find?`, `update_one` becomes `updateOne` (first match only),
`insert_one` becomes list append; monetary values (Python floats holding
decimal amounts) are modelled as `ℚ`; Python's `round(x, n)`
(banker's rounding) is `pyRound`; Python's `int(x)` truncation is
`pyTrunc`.  External collaborators (the Stripe adapter, the Razorpay
client, `hmac`/`hashlib`) are parameters of the route functions.
A FastAPI `HTTPException` aborts the request before any later write, so
routes that can raise return `Except ApiError …`; an `.error` result
carries no new state, reflecting that the exception path mutates
nothing.
-/

namespace Fleur

/-- Mongo `update_one`: rewrite the first element satisfying `p` with `f`,
leave everything else unchanged (zero matches update nothing). -/
def updateOne {α : Type} (p : α → Bool) (f : α → α) : List α → List α
  | [] => []
  | x :: xs => if p x then f x :: xs else x :: updateOne p f xs

/-- Python `round(x, d)`, modelled on exact rationals: round
`x * 10^d` to the nearest integer, ties to even, then divide back. -/
def roundHalfEven (x : ℚ) : ℤ :=
  if x - ⌊x⌋ < 1/2 then ⌊x⌋
  else if 1/2 < x - ⌊x⌋ then ⌊x⌋ + 1
  else if ⌊x⌋ % 2 = 0 then ⌊x⌋ else ⌊x⌋ + 1

def pyRound (x : ℚ) (d : ℕ) : ℚ := (roundHalfEven (x * 10 ^ d) : ℚ) / 10 ^ d

/-- Python `int(x)` for a float: truncation toward zero. -/
def pyTrunc (x : ℚ) : ℤ := if 0 ≤ x then ⌊x⌋ else -⌊-x⌋

/-! ## Data model (documents of the Mongo store) -/

/-- A catalog product document (`db.products`); fields used by the
embedded routes. -/
structure Product where
  id : String
  name : String
  price : ℚ
  image : String
  size : String
  rating : ℚ
  reviews_count : Nat
deriving DecidableEq

/-- One cart line, `{"product_id": …, "quantity": …}`.  `quantity` is a
plain Python `int` (the `CartItem` Pydantic model does not constrain it). -/
structure CartLine where
  product_id : String
  quantity : Int
deriving DecidableEq

/-- A cart document (`db.carts`). -/
structure Cart where
  user_id : String
  items : List CartLine
deriving DecidableEq

/-- One priced line of `items_details` built at checkout time. -/
structure ItemDetail where
  product_id : String
  name : String
  price : ℚ
  quantity : Int
deriving DecidableEq

/-- A payment-transaction document (`db.payment_transactions`).
A Stripe transaction carries `session_id`, a Razorpay transaction
carries `razorpay_order_id`; the absent key is `none`. -/
structure Txn where
  id : String
  session_id : Option String := none
  razorpay_order_id : Option String := none
  user_id : String
  amount : ℚ
  currency : String
  payment_method : String
  payment_status : String
  items : List ItemDetail
  created_at : String
  razorpay_payment_id : Option String := none
  updated_at : Option String := none
deriving DecidableEq

/-- An order document (`db.orders`). -/
structure Order where
  id : String
  user_id : String
  items : List ItemDetail
  total_amount : ℚ
  payment_method : String
  payment_status : String
  payment_session_id : Option String := none
  razorpay_order_id : Option String := none
  razorpay_payment_id : Option String := none
  order_status : String
  created_at : String
deriving DecidableEq

/-- A review document (`db.reviews`). -/
structure Review where
  id : String
  product_id : String
  user_id : String
  user_name : String
  rating : Int
  title : String
  comment : String
  created_at : String
deriving DecidableEq

/-- The whole document store. -/
structure DB where
  products : List Product := []
  carts : List Cart := []
  payment_transactions : List Txn := []
  orders : List Order := []
  reviews : List Review := []
deriving DecidableEq

/-- Errors surfaced as `HTTPException` by the embedded routes. -/
inductive ApiError where
  | emptyCart
  | invalidSignature
  | razorpayNotConfigured
deriving DecidableEq

/-! ## Cart mutation routes -/

/-- `POST /cart/add` (`add_to_cart`): insert a fresh cart, `$inc` an
existing line, or `$push` a new line — in each case with the quantity
exactly as supplied. -/
def add_to_cart (db : DB) (uid : String) (item : CartLine) : DB :=
  match db.carts.find? (fun c => c.user_id == uid) with
  | none =>
      { db with carts := db.carts ++ [{ user_id := uid, items := [item] }] }
  | some cart =>
      match cart.items.find? (fun i => i.product_id == item.product_id) with
      | some _ =>
          { db with carts :=
              (updateOne
                (fun c => c.user_id == uid &&
                  c.items.any (fun i => i.product_id == item.product_id))
                (fun c => { c with items :=
                  (updateOne (fun i => i.product_id == item.product_id)
                    (fun i => { i with quantity := i.quantity + item.quantity })
                    c.items) })
                db.carts) }
      | none =>
          { db with carts :=
              (updateOne (fun c => c.user_id == uid)
                (fun c => { c with items := c.items ++ [item] })
                db.carts) }

/-- `PUT /cart/update` (`update_cart_item`): `$pull` the line when the
supplied quantity is ≤ 0, otherwise `$set` the first matching line's
quantity. -/
def update_cart_item (db : DB) (uid : String) (item : CartLine) : DB :=
  if item.quantity ≤ 0 then
    { db with carts :=
        (updateOne (fun c => c.user_id == uid)
          (fun c => { c with items :=
            (c.items.filter (fun i => !(i.product_id == item.product_id))) })
          db.carts) }
  else
    { db with carts :=
        (updateOne
          (fun c => c.user_id == uid &&
            c.items.any (fun i => i.product_id == item.product_id))
          (fun c => { c with items :=
            (updateOne (fun i => i.product_id == item.product_id)
              (fun i => { i with quantity := item.quantity })
              c.items) })
          db.carts) }

/-- `DELETE /cart/remove/{product_id}` (`remove_from_cart`). -/
def remove_from_cart (db : DB) (uid : String) (product_id : String) : DB :=
  { db with carts :=
      (updateOne (fun c => c.user_id == uid)
        (fun c => { c with items :=
          (c.items.filter (fun i => !(i.product_id == product_id))) })
        db.carts) }

/-- `DELETE /cart/clear` (`clear_cart`). -/
def clear_cart (db : DB) (uid : String) : DB :=
  { db with carts :=
      (updateOne (fun c => c.user_id == uid)
        (fun c => { c with items := [] })
        db.carts) }

/-- The cart invariant claimed by the specification: every stored line
has quantity ≥ 1. -/
def cartInvariant (db : DB) : Prop :=
  ∀ c ∈ db.carts, ∀ l ∈ c.items, 1 ≤ l.quantity

instance (db : DB) : Decidable (cartInvariant db) := by
  unfold cartInvariant; infer_instance

/-! ## Checkout initiation -/

/-- One iteration of the pricing loop: look the item up in the catalog;
if present, add `price * quantity` to the running total and append the
priced line to `items_details`; if absent, skip the item. -/
def priceStep (products : List Product) (acc : ℚ × List ItemDetail)
    (item : CartLine) : ℚ × List ItemDetail :=
  match products.find? (fun p => p.id == item.product_id) with
  | some product =>
      (acc.1 + product.price * item.quantity,
       acc.2 ++ [{ product_id := product.id, name := product.name,
                   price := product.price, quantity := item.quantity }])
  | none => acc

/-- The pricing loop shared by `create_stripe_checkout` and
`create_razorpay_order`: walk the request's items, skip products absent
from the catalog, accumulate `total` and `items_details`. -/
def priceItems (products : List Product) (items : List CartLine) :
    ℚ × List ItemDetail :=
  items.foldl (priceStep products) (0, [])

/-- Spec-side total (§4.1, §8): Σ (catalog unit price × quantity) over
the cart items present in the catalog; absent items contribute 0. -/
def specCartTotal (products : List Product) (items : List CartLine) : ℚ :=
  (items.map (fun i =>
    match products.find? (fun p => p.id == i.product_id) with
    | some p => p.price * i.quantity
    | none => 0)).sum

/-- Spec-side line items (§4.1): the priced lines of the cart items
present in the catalog, in order; absent items are dropped. -/
def specLineItems (products : List Product) (items : List CartLine) :
    List ItemDetail :=
  items.filterMap (fun i =>
    (products.find? (fun p => p.id == i.product_id)).map (fun p =>
      { product_id := p.id, name := p.name, price := p.price,
        quantity := i.quantity }))

/-- The `CheckoutSessionRequest` handed to the Stripe adapter. -/
structure CheckoutSessionRequest where
  amount : ℚ
  currency : String
  success_url : String
  cancel_url : String
deriving DecidableEq

/-- The Stripe adapter's session answer. -/
structure StripeSession where
  session_id : String
  url : String
deriving DecidableEq

/-- `POST /checkout/stripe` (`create_stripe_checkout`).  `gateway` is
the external Stripe adapter's `create_checkout_session`.  On success
the result records the new store state, the request submitted to the
gateway (the route's single adapter call) and the adapter's session;
the HTTP answer is `{url := session.url, session_id :=
session.session_id}`. -/
def create_stripe_checkout (gateway : CheckoutSessionRequest → StripeSession)
    (db : DB) (uid : String) (items : List CartLine)
    (origin_url txnId now : String) :
    Except ApiError (DB × CheckoutSessionRequest × StripeSession) :=
  let priced := priceItems db.products items
  if priced.1 ≤ 0 then .error .emptyCart
  else
    let amount_usd := pyRound (priced.1 / 83) 2
    let checkout_request : CheckoutSessionRequest :=
      { amount := amount_usd, currency := "usd",
        success_url :=
          origin_url ++ "/checkout/success?session_id=\x7bCHECKOUT_SESSION_ID\x7d",
        cancel_url := origin_url ++ "/cart" }
    let session := gateway checkout_request
    let transaction : Txn :=
      { id := txnId, session_id := some session.session_id, user_id := uid,
        amount := priced.1, currency := "INR", payment_method := "stripe",
        payment_status := "pending", items := priced.2, created_at := now }
    .ok ({ db with payment_transactions :=
            (db.payment_transactions ++ [transaction]) },
         checkout_request, session)

/-- The `order_data` map handed to the Razorpay client (amount in
paise). -/
structure RazorpayOrderData where
  amount : ℤ
  currency : String
  payment_capture : Nat
deriving DecidableEq

/-- The Razorpay client's order answer. -/
structure RpOrder where
  id : String
  amount : ℤ
  currency : String
deriving DecidableEq

/-- `POST /checkout/razorpay` (`create_razorpay_order`).  `gateway` is
the external Razorpay client's `order.create`; a missing environment
key is modelled as the empty string (Python falsiness of
`os.environ.get`). -/
def create_razorpay_order (gateway : RazorpayOrderData → RpOrder)
    (razorpay_key razorpay_secret : String)
    (db : DB) (uid : String) (items : List CartLine) (txnId now : String) :
    Except ApiError (DB × RazorpayOrderData × RpOrder) :=
  if razorpay_key == "" || razorpay_secret == "" then
    .error .razorpayNotConfigured
  else
    let priced := priceItems db.products items
    if priced.1 ≤ 0 then .error .emptyCart
    else
      let order_data : RazorpayOrderData :=
        { amount := pyTrunc (priced.1 * 100), currency := "INR",
          payment_capture := 1 }
      let rp_order := gateway order_data
      let transaction : Txn :=
        { id := txnId, razorpay_order_id := some rp_order.id, user_id := uid,
          amount := priced.1, currency := "INR",
          payment_method := "razorpay", payment_status := "pending",
          items := priced.2, created_at := now }
      .ok ({ db with payment_transactions :=
              (db.payment_transactions ++ [transaction]) },
           order_data, rp_order)

/-! ## Reconciliation

Each reconciliation route's body is a sequence of atomic
document-store operations (`find_one` reads and single-document
writes).  `Proc` spells that sequence out, so that both the sequential
behaviour of one route and the interleaving of two racing routes can
be stated over the same embedding. -/

inductive Proc where
  | done : Proc
  | readTxn : (Txn → Bool) → (Option Txn → Proc) → Proc
  | write : (DB → DB) → Proc → Proc

/-- Sequential execution of one route body. -/
def runSeq (db : DB) : Proc → DB
  | .done => db
  | .readTxn q k => runSeq db (k (db.payment_transactions.find? q))
  | .write f k => runSeq (f db) k

/-- The store states reached after each write of a sequential run (the
intermediate execution points of one route). -/
def traceSeq (db : DB) : Proc → List DB
  | .done => []
  | .readTxn q k => traceSeq db (k (db.payment_transactions.find? q))
  | .write f k => f db :: traceSeq (f db) k

/-- Concurrent execution of two route bodies against the shared store:
the schedule picks which route executes its next atomic operation. -/
def interleave2 : List Bool → DB → Proc → Proc → DB
  | [], db, _, _ => db
  | true :: s, db, .done, q => interleave2 s db .done q
  | true :: s, db, .readTxn p k, q =>
      interleave2 s db (k (db.payment_transactions.find? p)) q
  | true :: s, db, .write f k, q => interleave2 s (f db) k q
  | false :: s, db, p, .done => interleave2 s db p .done
  | false :: s, db, p, .readTxn pr k =>
      interleave2 s db p (k (db.payment_transactions.find? pr))
  | false :: s, db, p, .write f k => interleave2 s (f db) p k

/-- Write 1 of the poll trigger: `update_one({"session_id": sid},
{"$set": {"payment_status": "paid", "updated_at": now}})` — keyed on
the session reference alone, not on the previous status. -/
def setTxnPaidStripe (session_id now : String) (db : DB) : DB :=
  { db with payment_transactions :=
      (updateOne (fun t => t.session_id == some session_id)
        (fun t => { t with payment_status := "paid", updated_at := some now })
        db.payment_transactions) }

/-- The order document built by the poll trigger. -/
def stripeOrder (txn : Txn) (session_id orderId now : String) : Order :=
  { id := orderId, user_id := txn.user_id, items := txn.items,
    total_amount := txn.amount, payment_method := "stripe",
    payment_status := "paid", payment_session_id := some session_id,
    order_status := "confirmed", created_at := now }

/-- `db.orders.insert_one(order)`. -/
def insertOrder (o : Order) (db : DB) : DB :=
  { db with orders := db.orders ++ [o] }

/-- `db.carts.update_one({"user_id": uid}, {"$set": {"items": []}})`. -/
def clearUserCart (uid : String) (db : DB) : DB :=
  { db with carts :=
      (updateOne (fun c => c.user_id == uid)
        (fun c => { c with items := [] })
        db.carts) }

/-- The store operations of `get_checkout_status` once the adapter has
answered with `payment_status`: a `find_one` read of the transaction, a
status test in route code, then three unconditional writes. -/
def pollTrigger (session_id payment_status orderId now : String) : Proc :=
  if payment_status == "paid" then
    .readTxn (fun t => t.session_id == some session_id) (fun found =>
      match found with
      | some transaction =>
          if transaction.payment_status != "paid" then
            .write (setTxnPaidStripe session_id now)
              (.write (insertOrder (stripeOrder transaction session_id orderId now))
                (.write (clearUserCart transaction.user_id) .done))
          else .done
      | none => .done)
  else .done

/-- The Stripe adapter's `get_checkout_status` answer. -/
structure StripeStatus where
  status : String
  payment_status : String
  amount_total : ℤ
  currency : String
deriving DecidableEq

/-- `GET /checkout/status/{session_id}` (`get_checkout_status`): `st`
is the adapter's authoritative answer; the route runs the poll trigger
against the store and echoes the adapter's answer. -/
def get_checkout_status (db : DB) (session_id : String) (st : StripeStatus)
    (orderId now : String) : DB × StripeStatus :=
  (runSeq db (pollTrigger session_id st.payment_status orderId now), st)

/-- Write 1 of the verify trigger: `update_one({"razorpay_order_id":
oid}, {"$set": …})` — again keyed on the order reference alone. -/
def setTxnPaidRazorpay (razorpay_order_id razorpay_payment_id now : String)
    (db : DB) : DB :=
  { db with payment_transactions :=
      (updateOne (fun t => t.razorpay_order_id == some razorpay_order_id)
        (fun t =>
          { t with
            payment_status := "paid",
            razorpay_payment_id := some razorpay_payment_id,
            updated_at := some now })
        db.payment_transactions) }

/-- The order document built by the verify trigger. -/
def razorpayOrder (txn : Txn)
    (razorpay_order_id razorpay_payment_id orderId now : String) : Order :=
  { id := orderId, user_id := txn.user_id, items := txn.items,
    total_amount := txn.amount, payment_method := "razorpay",
    payment_status := "paid", razorpay_order_id := some razorpay_order_id,
    razorpay_payment_id := some razorpay_payment_id,
    order_status := "confirmed", created_at := now }

/-- The store operations of `verify_razorpay_payment` after the
signature check passed. -/
def verifyTrigger (razorpay_order_id razorpay_payment_id orderId now : String) :
    Proc :=
  .readTxn (fun t => t.razorpay_order_id == some razorpay_order_id) (fun found =>
    match found with
    | some transaction =>
        if transaction.payment_status != "paid" then
          .write (setTxnPaidRazorpay razorpay_order_id razorpay_payment_id now)
            (.write (insertOrder
                (razorpayOrder transaction razorpay_order_id razorpay_payment_id
                  orderId now))
              (.write (clearUserCart transaction.user_id) .done))
        else .done
    | none => .done)

/-- `POST /checkout/razorpay/verify` (`verify_razorpay_payment`).
`hmacSha256 secret msg` stands for the external
`hmac.new(secret.encode(), msg.encode(), hashlib.sha256).hexdigest()`.
A signature mismatch raises before any store access, so the `.error`
result carries no state. -/
def verify_razorpay_payment (hmacSha256 : String → String → String)
    (razorpay_secret : String) (db : DB)
    (razorpay_order_id razorpay_payment_id razorpay_signature : String)
    (orderId now : String) : Except ApiError (DB × String) :=
  let msg := razorpay_order_id ++ "|" ++ razorpay_payment_id
  let generated_signature := hmacSha256 razorpay_secret msg
  if generated_signature != razorpay_signature then .error .invalidSignature
  else
    .ok (runSeq db (verifyTrigger razorpay_order_id razorpay_payment_id
          orderId now),
         "success")

/-- The Stripe adapter's verified webhook payload (`handle_webhook`'s
answer for a valid event). -/
structure WebhookResponse where
  session_id : String
  payment_status : String
deriving DecidableEq

/-- `POST /webhook/stripe` (`stripe_webhook`) on a valid event: a
single unconditional `update_one` setting `payment_status` — no status
guard, no order insert, no cart write.  Returns `"processed"`. -/
def stripe_webhook (db : DB) (wr : WebhookResponse) : DB × String :=
  if wr.payment_status == "paid" then
    ({ db with payment_transactions :=
        (updateOne (fun t => t.session_id == some wr.session_id)
          (fun t => { t with payment_status := "paid" })
          db.payment_transactions) },
     "processed")
  else (db, "processed")

/-! ## Reviews -/

/-- The `ReviewCreate` request body. -/
structure ReviewCreate where
  product_id : String
  rating : Int
  title : String
  comment : String
deriving DecidableEq

/-- `POST /reviews` (`create_review`): insert the review document, then
recompute the product's rating over `find({"product_id":
…}).to_list(1000)` — the first 1000 matching reviews in insertion
order — and store the rounded mean and the count. -/
def create_review (db : DB) (uid uname : String) (r : ReviewCreate)
    (reviewId now : String) : DB × Review :=
  let review_doc : Review :=
    { id := reviewId, product_id := r.product_id, user_id := uid,
      user_name := uname, rating := r.rating, title := r.title,
      comment := r.comment, created_at := now }
  let db1 := { db with reviews := (db.reviews ++ [review_doc]) }
  let reviews :=
    (db1.reviews.filter (fun rv => rv.product_id == r.product_id)).take 1000
  let avg_rating : ℚ :=
    if reviews.isEmpty then 0
    else ((reviews.map (fun rv => (rv.rating : ℚ))).sum) / reviews.length
  let db2 := { db1 with products :=
      (updateOne (fun p => p.id == r.product_id)
        (fun p =>
          { p with
            rating := pyRound avg_rating 1,
            reviews_count := reviews.length })
        db1.products) }
  (db2, review_doc)

/-! ## Sample data used by concrete instantiations -/

/-- A pending Stripe transaction for session `"s1"`. -/
def sampleStripeTxn : Txn :=
  { id := "t1", session_id := some "s1", user_id := "u", amount := 600,
    currency := "INR", payment_method := "stripe",
    payment_status := "pending",
    items := [{ product_id := "p1", name := "Rose", price := 300,
                quantity := 2 }],
    created_at := "c1" }

/-- A pending Razorpay transaction for order `"r1"`. -/
def sampleRpTxn : Txn :=
  { id := "t2", razorpay_order_id := some "r1", user_id := "v", amount := 450,
    currency := "INR", payment_method := "razorpay",
    payment_status := "pending",
    items := [{ product_id := "p2", name := "Musk", price := 450,
                quantity := 1 }],
    created_at := "c2" }

/-- A store holding both pending transactions and both users' carts. -/
def sampleRecDB : DB :=
  { carts := [{ user_id := "u",
                items := [{ product_id := "p1", quantity := 2 }] },
              { user_id := "v",
                items := [{ product_id := "p2", quantity := 1 }] }],
    payment_transactions := [sampleStripeTxn, sampleRpTxn] }

/-- One stored 5-star review for product `"p1"`. -/
def sampleOldReview : Review :=
  { id := "rv", product_id := "p1", user_id := "w", user_name := "W",
    rating := 5, title := "t", comment := "c", created_at := "c0" }

/-- A store whose product `"p1"` already carries 1000 reviews. -/
def sampleManyReviewsDB : DB :=
  { products := [{ id := "p1", name := "Rose", price := 300, image := "i",
                   size := "50ml", rating := 5, reviews_count := 1000 }],
    reviews := List.replicate 1000 sampleOldReview }

/-- Spec-side (§4.4): all reviews of a product, in insertion order. -/
def reviewsOf (db : DB) (pid : String) : List Review :=
  db.reviews.filter (fun rv => rv.product_id == pid)

/-- Spec-side (§4.4): the arithmetic mean of all review ratings of a
product. -/
def specMeanRating (db : DB) (pid : String) : ℚ :=
  ((reviewsOf db pid).map (fun rv => (rv.rating : ℚ))).sum /
    (reviewsOf db pid).length

/-! ## Helper lemmas about the store primitives -/

theorem mem_updateOne {α : Type} {p : α → Bool} {f : α → α} {l : List α}
    {x : α} (hx : x ∈ updateOne p f l) : x ∈ l ∨ ∃ y, y ∈ l ∧ x = f y := by
  induction l with
  | nil => simp [updateOne] at hx
  | cons a as ih =>
    by_cases h : p a
    · simp only [updateOne, h, if_true, List.mem_cons] at hx
      rcases hx with rfl | hx
      · exact Or.inr ⟨a, List.mem_cons_self a as, rfl⟩
      · exact Or.inl (List.mem_cons_of_mem a hx)
    · simp only [updateOne, h, if_false, Bool.false_eq_true, List.mem_cons] at hx
      rcases hx with rfl | hx
      · exact Or.inl (List.mem_cons_self x as)
      · rcases ih hx with h1 | ⟨y, hy, rfl⟩
        · exact Or.inl (List.mem_cons_of_mem a h1)
        · exact Or.inr ⟨y, List.mem_cons_of_mem a hy, rfl⟩

theorem find?_updateOne_self {α : Type} {p : α → Bool} {f : α → α}
    {l : List α} {x : α} (h : l.find? p = some x) (hf : p (f x) = true) :
    (updateOne p f l).find? p = some (f x) := by
  induction l with
  | nil => simp at h
  | cons a as ih =>
    by_cases ha : p a
    · rw [List.find?_cons_of_pos _ ha] at h
      cases h
      rw [updateOne, if_pos ha, List.find?_cons_of_pos _ hf]
    · rw [List.find?_cons_of_neg _ (by simpa using ha)] at h
      rw [updateOne, if_neg ha, List.find?_cons_of_neg _ (by simpa using ha)]
      exact ih h

theorem find?_updateOne_none {α : Type} {q p : α → Bool} {f : α → α}
    {l : List α} (hq : ∀ x, q (f x) = q x) (h : l.find? q = none) :
    (updateOne p f l).find? q = none := by
  induction l with
  | nil => simp [updateOne]
  | cons a as ih =>
    rw [List.find?_cons] at h
    split at h
    · cases h
    · rename_i ha
      by_cases hpa : p a
      · rw [updateOne, if_pos hpa, List.find?_cons]
        split
        · rename_i hqa; rw [hq a] at hqa; simp [hqa] at ha
        · exact h
      · rw [updateOne, if_neg hpa, List.find?_cons]
        split
        · rename_i hqa; simp [hqa] at ha
        · exact ih h

/-! ## Pricing and rounding lemmas -/

theorem priceItems_go (products : List Product) (items : List CartLine) :
    ∀ acc : ℚ × List ItemDetail,
      items.foldl (priceStep products) acc =
        (acc.1 + specCartTotal products items,
         acc.2 ++ specLineItems products items) := by
  induction items with
  | nil => intro acc; simp [specCartTotal, specLineItems]
  | cons i rest ih =>
    intro acc
    rw [List.foldl_cons, ih]
    cases hf : products.find? (fun p => p.id == i.product_id) with
    | none =>
      simp [priceStep, hf, specCartTotal, specLineItems]
    | some p =>
      simp [priceStep, hf, specCartTotal, specLineItems, add_assoc]

theorem priceItems_eq (products : List Product) (items : List CartLine) :
    priceItems products items =
      (specCartTotal products items, specLineItems products items) := by
  rw [priceItems, priceItems_go]
  simp

theorem roundHalfEven_abs_le (x : ℚ) : |(roundHalfEven x : ℚ) - x| ≤ 1/2 := by
  have h1 : (⌊x⌋ : ℚ) ≤ x := Int.floor_le x
  have h2 : x < ⌊x⌋ + 1 := Int.lt_floor_add_one x
  unfold roundHalfEven
  split_ifs with c1 c2 c3
  · rw [abs_le]; constructor <;> linarith
  · rw [abs_le]; push_cast; constructor <;> linarith
  · rw [abs_le]; constructor <;> linarith
  · rw [abs_le]; push_cast; constructor <;> linarith

theorem pyRound_div83_ne {t : ℚ} (ht : 0 < t) : pyRound (t / 83) 2 ≠ t := by
  intro heq
  rw [pyRound] at heq
  have hb := roundHalfEven_abs_le (t / 83 * 10 ^ 2)
  have habs := abs_le.1 hb
  set k := roundHalfEven (t / 83 * 10 ^ 2) with hk
  have hkt : (k : ℚ) = 100 * t := by
    field_simp at heq
    linarith
  have hkpos : 0 < k := by
    have h0 : (0 : ℚ) < (k : ℚ) := by rw [hkt]; positivity
    exact_mod_cast h0
  have hk1 : (1 : ℚ) ≤ (k : ℚ) := by exact_mod_cast hkpos
  linarith [habs.2]

/-! ## C4, C5, C10: checkout initiation -/

/-- C4: for every checkout-initiation request (Stripe or Razorpay) with
positive priced total, the computed total equals
Σ (catalog unit price × quantity) over the catalog-present items
(absent items contribute nothing), and exactly one `PaymentTransaction`
with status `pending` whose items snapshot is exactly the priced line
items that were summed is appended to the ledger. -/
theorem checkout_initiation_correct :
    (∀ (gateway : CheckoutSessionRequest → StripeSession) (db : DB)
        (uid : String) (items : List CartLine) (origin_url txnId now : String),
      0 < (priceItems db.products items).1 →
      ∃ (st : Txn) (req : CheckoutSessionRequest) (sess : StripeSession),
        create_stripe_checkout gateway db uid items origin_url txnId now =
          .ok ({ db with payment_transactions :=
                  (db.payment_transactions ++ [st]) }, req, sess) ∧
        st.payment_status = "pending" ∧
        st.amount = specCartTotal db.products items ∧
        st.items = (priceItems db.products items).2 ∧
        st.items = specLineItems db.products items) ∧
    (∀ (gateway : RazorpayOrderData → RpOrder) (key secret : String)
        (db : DB) (uid : String) (items : List CartLine) (txnId now : String),
      key ≠ "" → secret ≠ "" →
      0 < (priceItems db.products items).1 →
      ∃ (st : Txn) (od : RazorpayOrderData) (rp : RpOrder),
        create_razorpay_order gateway key secret db uid items txnId now =
          .ok ({ db with payment_transactions :=
                  (db.payment_transactions ++ [st]) }, od, rp) ∧
        st.payment_status = "pending" ∧
        st.amount = specCartTotal db.products items ∧
        st.items = (priceItems db.products items).2 ∧
        st.items = specLineItems db.products items) := by
  constructor
  · intro gateway db uid items origin_url txnId now h
    rw [create_stripe_checkout]
    rw [if_neg (not_le.2 h)]
    refine ⟨_, _, _, rfl, rfl, ?_, rfl, ?_⟩
    · rw [priceItems_eq]
    · rw [priceItems_eq]
  · intro gateway key secret db uid items txnId now hk hs h
    rw [create_razorpay_order]
    rw [if_neg (by simp [hk, hs])]
    rw [if_neg (not_le.2 h)]
    refine ⟨_, _, _, rfl, rfl, ?_, rfl, ?_⟩
    · rw [priceItems_eq]
    · rw [priceItems_eq]

/-- C4 witness: a one-product catalog (price 300), cart `[{p1, qty 2}]`
plus an item absent from the catalog; total 600. -/
theorem checkout_initiation_correct_witness :
    (0 : ℚ) <
      (priceItems
        [{ id := "p1", name := "Rose", price := 300, image := "i",
           size := "50ml", rating := 0, reviews_count := 0 }]
        [{ product_id := "p1", quantity := 2 },
         { product_id := "gone", quantity := 7 }]).1 ∧
    ∃ (st : Txn) (req : CheckoutSessionRequest) (sess : StripeSession),
      create_stripe_checkout (fun _ => { session_id := "s1", url := "u1" })
          { products :=
              [{ id := "p1", name := "Rose", price := 300, image := "i",
                 size := "50ml", rating := 0, reviews_count := 0 }] }
          "u"
          [{ product_id := "p1", quantity := 2 },
           { product_id := "gone", quantity := 7 }]
          "http://o" "t1" "now" =
        .ok ({ products :=
                [{ id := "p1", name := "Rose", price := 300, image := "i",
                   size := "50ml", rating := 0, reviews_count := 0 }],
               payment_transactions := [st] }, req, sess) ∧
      st.payment_status = "pending" ∧
      st.amount =
        specCartTotal
          [{ id := "p1", name := "Rose", price := 300, image := "i",
             size := "50ml", rating := 0, reviews_count := 0 }]
          [{ product_id := "p1", quantity := 2 },
           { product_id := "gone", quantity := 7 }] ∧
      st.items =
        (priceItems
          [{ id := "p1", name := "Rose", price := 300, image := "i",
             size := "50ml", rating := 0, reviews_count := 0 }]
          [{ product_id := "p1", quantity := 2 },
           { product_id := "gone", quantity := 7 }]).2 ∧
      st.items =
        specLineItems
          [{ id := "p1", name := "Rose", price := 300, image := "i",
             size := "50ml", rating := 0, reviews_count := 0 }]
          [{ product_id := "p1", quantity := 2 },
           { product_id := "gone", quantity := 7 }] := by
  have h : (0 : ℚ) <
      (priceItems
        [{ id := "p1", name := "Rose", price := 300, image := "i",
           size := "50ml", rating := 0, reviews_count := 0 }]
        [{ product_id := "p1", quantity := 2 },
         { product_id := "gone", quantity := 7 }]).1 := by
    rw [priceItems_eq]
    simp [specCartTotal]
  exact ⟨h, checkout_initiation_correct.1 _ _ "u" _ "http://o" "t1" "now" h⟩

/-- C5: a checkout-initiation request whose priced total is ≤ 0 fails
with the empty-cart error; no gateway call result is used and no
transaction is recorded (`.error` carries no state). -/
theorem empty_cart_rejected :
    (∀ (gateway : CheckoutSessionRequest → StripeSession) (db : DB)
        (uid : String) (items : List CartLine) (origin_url txnId now : String),
      (priceItems db.products items).1 ≤ 0 →
      create_stripe_checkout gateway db uid items origin_url txnId now =
        .error .emptyCart) ∧
    (∀ (gateway : RazorpayOrderData → RpOrder) (key secret : String)
        (db : DB) (uid : String) (items : List CartLine) (txnId now : String),
      key ≠ "" → secret ≠ "" →
      (priceItems db.products items).1 ≤ 0 →
      create_razorpay_order gateway key secret db uid items txnId now =
        .error .emptyCart) := by
  constructor
  · intro gateway db uid items origin_url txnId now h
    rw [create_stripe_checkout, if_pos h]
  · intro gateway key secret db uid items txnId now hk hs h
    rw [create_razorpay_order, if_neg (by simp [hk, hs]), if_pos h]

/-- C5 witness: the empty item list prices to total 0. -/
theorem empty_cart_rejected_witness :
    create_stripe_checkout (fun _ => { session_id := "s1", url := "u1" })
        {} "u" [] "http://o" "t1" "now" = .error .emptyCart ∧
    create_razorpay_order (fun _ => { id := "r1", amount := 0, currency := "INR" })
        "key" "sec" {} "u" [] "t1" "now" = .error .emptyCart := by
  constructor
  · exact empty_cart_rejected.1 _ {} "u" [] "http://o" "t1" "now"
      (by rw [priceItems_eq]; simp [specCartTotal])
  · exact empty_cart_rejected.2 _ "key" "sec" {} "u" [] "t1" "now"
      (by decide) (by decide)
      (by rw [priceItems_eq]; simp [specCartTotal])

/-- C10: for every Stripe checkout initiation with positive priced
total T, the request submitted to the gateway carries amount
`round(T / 83, 2)` and currency `"usd"`, while the persisted
transaction records amount T and currency `"INR"`; the ledger row's
amount and currency never equal those submitted to the gateway. -/
theorem stripe_converted_amount_mismatch :
    ∀ (gateway : CheckoutSessionRequest → StripeSession) (db : DB)
      (uid : String) (items : List CartLine) (origin_url txnId now : String),
      0 < (priceItems db.products items).1 →
      ∃ (st : Txn) (req : CheckoutSessionRequest) (sess : StripeSession),
        create_stripe_checkout gateway db uid items origin_url txnId now =
          .ok ({ db with payment_transactions :=
                  (db.payment_transactions ++ [st]) }, req, sess) ∧
        req.amount = pyRound ((priceItems db.products items).1 / 83) 2 ∧
        req.currency = "usd" ∧
        st.amount = (priceItems db.products items).1 ∧
        st.currency = "INR" ∧
        req.amount ≠ st.amount ∧
        req.currency ≠ st.currency := by
  intro gateway db uid items origin_url txnId now h
  rw [create_stripe_checkout]
  rw [if_neg (not_le.2 h)]
  refine ⟨_, _, _, rfl, rfl, rfl, rfl, rfl, pyRound_div83_ne h, ?_⟩
  simp

/-- C10 witness: catalog price 300, quantity 2: the gateway request is
for `round(600/83, 2) = 7.23` USD while the ledger row records 600 INR. -/
theorem stripe_converted_amount_mismatch_witness :
    ∃ (st : Txn) (req : CheckoutSessionRequest) (sess : StripeSession),
      create_stripe_checkout (fun _ => { session_id := "s1", url := "u1" })
          { products :=
              [{ id := "p1", name := "Rose", price := 300, image := "i",
                 size := "50ml", rating := 0, reviews_count := 0 }] }
          "u" [{ product_id := "p1", quantity := 2 }] "http://o" "t1" "now" =
        .ok ({ products :=
                [{ id := "p1", name := "Rose", price := 300, image := "i",
                   size := "50ml", rating := 0, reviews_count := 0 }],
               payment_transactions := [st] }, req, sess) ∧
      req.amount =
        pyRound
          ((priceItems
            [{ id := "p1", name := "Rose", price := 300, image := "i",
               size := "50ml", rating := 0, reviews_count := 0 }]
            [{ product_id := "p1", quantity := 2 }]).1 / 83) 2 ∧
      req.currency = "usd" ∧
      st.amount =
        (priceItems
          [{ id := "p1", name := "Rose", price := 300, image := "i",
             size := "50ml", rating := 0, reviews_count := 0 }]
          [{ product_id := "p1", quantity := 2 }]).1 ∧
      st.currency = "INR" ∧
      req.amount ≠ st.amount ∧
      req.currency ≠ st.currency :=
  stripe_converted_amount_mismatch _ _ "u" _ "http://o" "t1" "now"
    (by rw [priceItems_eq]; simp [specCartTotal])

/-! ## C6: client-proof signature verification -/

/-- C6: the verify endpoint recomputes the signature over
`orderId|paymentId` with the shared secret; any supplied signature
other than the recomputed one fails with the invalid-signature error
before any store access (zero state mutation), and the exact recomputed
signature proceeds. -/
theorem signature_mismatch_rejected :
    (∀ (hmacSha256 : String → String → String) (secret : String) (db : DB)
        (oid pid sig orderId now : String),
      sig ≠ hmacSha256 secret (oid ++ "|" ++ pid) →
      verify_razorpay_payment hmacSha256 secret db oid pid sig orderId now =
        .error .invalidSignature) ∧
    (∀ (hmacSha256 : String → String → String) (secret : String) (db : DB)
        (oid pid orderId now : String),
      verify_razorpay_payment hmacSha256 secret db oid pid
          (hmacSha256 secret (oid ++ "|" ++ pid)) orderId now =
        .ok (runSeq db (verifyTrigger oid pid orderId now), "success")) := by
  constructor
  · intro hmacSha256 secret db oid pid sig orderId now h
    rw [verify_razorpay_payment]
    rw [if_pos (bne_iff_ne.mpr (Ne.symm h))]
  · intro hmacSha256 secret db oid pid orderId now
    rw [verify_razorpay_payment]
    rw [if_neg (by simp)]

/-- C6 witness: with a concrete keyed-hash function, a one-character
mutation of the correct signature is rejected and the correct signature
is accepted. -/
theorem signature_mismatch_rejected_witness :
    verify_razorpay_payment (fun secret msg => secret ++ ":" ++ msg) "k"
        {} "o1" "p1" "k:o1|p2" "ord" "now" = .error .invalidSignature ∧
    verify_razorpay_payment (fun secret msg => secret ++ ":" ++ msg) "k"
        {} "o1" "p1" "k:o1|p1" "ord" "now" =
      .ok (runSeq {} (verifyTrigger "o1" "p1" "ord" "now"), "success") := by
  constructor
  · exact signature_mismatch_rejected.1 _ "k" {} "o1" "p1" "k:o1|p2" "ord" "now"
      (by decide)
  · exact signature_mismatch_rejected.2 _ "k" {} "o1" "p1" "ord" "now"

/-! ## C7: cart invariant -/

/-- C7 counterexample: the claim is false on the code.  `add_to_cart`
applies the supplied quantity unconditionally, so adding an item with
quantity 0 to a fresh cart stores a line with quantity 0. -/
theorem cart_invariant_counterexample :
    ¬ cartInvariant
        (add_to_cart {} "u" { product_id := "p", quantity := 0 }) := by
  decide

/-- C7 (amended): `update` (which deletes the line when the supplied
quantity is ≤ 0), `remove` and `clear` always preserve the invariant
that every stored cart line has quantity ≥ 1, and `add` preserves it
provided the supplied quantity is ≥ 1; `add` with quantity ≤ 0 can
store or leave a non-positive line (see the counterexample). -/
theorem cart_ops_preserve_invariant :
    (∀ (db : DB) (uid : String) (item : CartLine), cartInvariant db →
      1 ≤ item.quantity → cartInvariant (add_to_cart db uid item)) ∧
    (∀ (db : DB) (uid : String) (item : CartLine), cartInvariant db →
      cartInvariant (update_cart_item db uid item)) ∧
    (∀ (db : DB) (uid pid : String), cartInvariant db →
      cartInvariant (remove_from_cart db uid pid)) ∧
    (∀ (db : DB) (uid : String), cartInvariant db →
      cartInvariant (clear_cart db uid)) := by
  refine ⟨?_, ?_, ?_, ?_⟩
  · intro db uid item hinv hq
    unfold add_to_cart
    cases hfind : db.carts.find? (fun c => c.user_id == uid) with
    | none =>
      intro c hc l hl
      simp only [List.mem_append, List.mem_singleton] at hc
      rcases hc with h1 | rfl
      · exact hinv c h1 l hl
      · simp only [List.mem_singleton] at hl
        subst hl; exact hq
    | some cart =>
      dsimp only
      cases hline :
          cart.items.find? (fun i => i.product_id == item.product_id) with
      | none =>
        dsimp only
        intro c hc l hl
        rcases mem_updateOne hc with h1 | ⟨y, hy, rfl⟩
        · exact hinv c h1 l hl
        · simp only [List.mem_append, List.mem_singleton] at hl
          rcases hl with h2 | rfl
          · exact hinv y hy l h2
          · exact hq
      | some old =>
        dsimp only
        intro c hc l hl
        rcases mem_updateOne hc with h1 | ⟨y, hy, rfl⟩
        · exact hinv c h1 l hl
        · simp only at hl
          rcases mem_updateOne hl with h2 | ⟨z, hz, rfl⟩
          · exact hinv y hy l h2
          · have h3 := hinv y hy z hz
            simp only
            omega
  · intro db uid item hinv
    unfold update_cart_item
    by_cases hqty : item.quantity ≤ 0
    · rw [if_pos hqty]
      intro c hc l hl
      rcases mem_updateOne hc with h1 | ⟨y, hy, rfl⟩
      · exact hinv c h1 l hl
      · simp only at hl
        exact hinv y hy l (List.mem_of_mem_filter hl)
    · rw [if_neg hqty]
      intro c hc l hl
      rcases mem_updateOne hc with h1 | ⟨y, hy, rfl⟩
      · exact hinv c h1 l hl
      · simp only at hl
        rcases mem_updateOne hl with h2 | ⟨z, hz, rfl⟩
        · exact hinv y hy l h2
        · simp only
          omega
  · intro db uid pid hinv
    intro c hc l hl
    rcases mem_updateOne hc with h1 | ⟨y, hy, rfl⟩
    · exact hinv c h1 l hl
    · exact hinv y hy l (List.mem_of_mem_filter hl)
  · intro db uid hinv
    intro c hc l hl
    rcases mem_updateOne hc with h1 | ⟨y, hy, rfl⟩
    · exact hinv c h1 l hl
    · simp at hl

/-- C7 witness: the amended theorem applied at concrete inputs. -/
theorem cart_ops_preserve_invariant_witness :
    cartInvariant
      (add_to_cart {} "u" { product_id := "p", quantity := 2 }) ∧
    cartInvariant
      (update_cart_item
        { carts := [{ user_id := "u",
                      items := [{ product_id := "p", quantity := 2 }] }] }
        "u" { product_id := "p", quantity := 0 }) ∧
    cartInvariant
      (remove_from_cart
        { carts := [{ user_id := "u",
                      items := [{ product_id := "p", quantity := 2 }] }] }
        "u" "p") ∧
    cartInvariant
      (clear_cart
        { carts := [{ user_id := "u",
                      items := [{ product_id := "p", quantity := 2 }] }] }
        "u") :=
  ⟨cart_ops_preserve_invariant.1 {} "u" _ (by decide) (by decide),
   cart_ops_preserve_invariant.2.1 _ "u" _ (by decide),
   cart_ops_preserve_invariant.2.2.1 _ "u" "p" (by decide),
   cart_ops_preserve_invariant.2.2.2 _ "u" (by decide)⟩

/-! ## Reconciliation run lemmas -/

theorem runSeq_done (db : DB) : runSeq db .done = db := rfl

theorem runSeq_readTxn (db : DB) (q : Txn → Bool) (k : Option Txn → Proc) :
    runSeq db (.readTxn q k) =
      runSeq db (k (db.payment_transactions.find? q)) := rfl

theorem runSeq_write (db : DB) (f : DB → DB) (k : Proc) :
    runSeq db (.write f k) = runSeq (f db) k := rfl

/-- Sequential effect of the poll trigger on a still-pending
transaction: set paid, insert the order, clear the owner's cart. -/
theorem runSeq_pollTrigger_pending {db : DB} {sid : String} {txn : Txn}
    (hfind : db.payment_transactions.find?
        (fun t => t.session_id == some sid) = some txn)
    (hpend : txn.payment_status ≠ "paid") (oid now : String) :
    runSeq db (pollTrigger sid "paid" oid now) =
      clearUserCart txn.user_id
        (insertOrder (stripeOrder txn sid oid now)
          (setTxnPaidStripe sid now db)) := by
  have hb : (txn.payment_status != "paid") = true := bne_iff_ne.mpr hpend
  rw [pollTrigger, if_pos (by simp), runSeq_readTxn, hfind]
  dsimp only
  rw [hb, if_pos rfl]
  rfl

/-- The poll trigger is a no-op when the transaction is already paid,
whatever the adapter answers. -/
theorem runSeq_pollTrigger_noop {db : DB} {sid : String} {txn : Txn}
    (hfind : db.payment_transactions.find?
        (fun t => t.session_id == some sid) = some txn)
    (hpaid : txn.payment_status = "paid") (ps oid now : String) :
    runSeq db (pollTrigger sid ps oid now) = db := by
  rw [pollTrigger]
  by_cases hps : (ps == "paid") = true
  · rw [if_pos hps, runSeq_readTxn, hfind]
    dsimp only
    rw [hpaid]
    simp [runSeq_done]
  · rw [if_neg hps]
    exact runSeq_done db

/-- The poll trigger is a no-op when no transaction carries the
session reference. -/
theorem runSeq_pollTrigger_nofind {db : DB} {sid : String}
    (hfind : db.payment_transactions.find?
        (fun t => t.session_id == some sid) = none) (ps oid now : String) :
    runSeq db (pollTrigger sid ps oid now) = db := by
  rw [pollTrigger]
  by_cases hps : (ps == "paid") = true
  · rw [if_pos hps, runSeq_readTxn, hfind]
    rfl
  · rw [if_neg hps]
    exact runSeq_done db

/-- Sequential effect of the verify trigger on a still-pending
transaction. -/
theorem runSeq_verifyTrigger_pending {db : DB} {roid : String} {txn : Txn}
    (hfind : db.payment_transactions.find?
        (fun t => t.razorpay_order_id == some roid) = some txn)
    (hpend : txn.payment_status ≠ "paid") (rpid oid now : String) :
    runSeq db (verifyTrigger roid rpid oid now) =
      clearUserCart txn.user_id
        (insertOrder (razorpayOrder txn roid rpid oid now)
          (setTxnPaidRazorpay roid rpid now db)) := by
  have hb : (txn.payment_status != "paid") = true := bne_iff_ne.mpr hpend
  rw [verifyTrigger, runSeq_readTxn, hfind]
  dsimp only
  rw [hb, if_pos rfl]
  rfl

/-- The verify trigger is a no-op when the transaction is already
paid. -/
theorem runSeq_verifyTrigger_noop {db : DB} {roid : String} {txn : Txn}
    (hfind : db.payment_transactions.find?
        (fun t => t.razorpay_order_id == some roid) = some txn)
    (hpaid : txn.payment_status = "paid") (rpid oid now : String) :
    runSeq db (verifyTrigger roid rpid oid now) = db := by
  rw [verifyTrigger, runSeq_readTxn, hfind]
  dsimp only
  rw [hpaid]
  simp [runSeq_done]

/-- The verify trigger is a no-op when no transaction carries the
order reference. -/
theorem runSeq_verifyTrigger_nofind {db : DB} {roid : String}
    (hfind : db.payment_transactions.find?
        (fun t => t.razorpay_order_id == some roid) = none)
    (rpid oid now : String) :
    runSeq db (verifyTrigger roid rpid oid now) = db := by
  rw [verifyTrigger, runSeq_readTxn, hfind]
  rfl

/-- After the poll transition, the transaction found under the session
reference is the paid copy. -/
theorem find?_after_pollTransition {db : DB} {sid : String} {txn : Txn}
    (hfind : db.payment_transactions.find?
        (fun t => t.session_id == some sid) = some txn) (now : String) :
    (setTxnPaidStripe sid now db).payment_transactions.find?
        (fun t => t.session_id == some sid) =
      some { txn with payment_status := "paid", updated_at := some now } := by
  apply find?_updateOne_self hfind
  simpa using List.find?_some hfind

/-- After the verify transition, the transaction found under the order
reference is the paid copy. -/
theorem find?_after_verifyTransition {db : DB} {roid : String} {txn : Txn}
    (hfind : db.payment_transactions.find?
        (fun t => t.razorpay_order_id == some roid) = some txn)
    (rpid now : String) :
    (setTxnPaidRazorpay roid rpid now db).payment_transactions.find?
        (fun t => t.razorpay_order_id == some roid) =
      some { txn with
             payment_status := "paid",
             razorpay_payment_id := some rpid,
             updated_at := some now } := by
  apply find?_updateOne_self hfind
  simpa using List.find?_some hfind

/-! ## C1: reconciliation idempotence -/

/-- C1: for a pending transaction, the first successful trigger creates
exactly one order and marks the transaction paid; a second trigger for
the same reference — a second poll (any adapter answer), a second
verify, or a verify after a poll — changes nothing and still answers
successfully. -/
theorem reconciliation_idempotent :
    (∀ (db : DB) (sid : String) (st st2 : StripeStatus) (txn : Txn)
        (oid now oid2 now2 : String),
      db.payment_transactions.find?
          (fun t => t.session_id == some sid) = some txn →
      txn.payment_status ≠ "paid" →
      st.payment_status = "paid" →
      (get_checkout_status db sid st oid now).1.orders =
          db.orders ++ [stripeOrder txn sid oid now] ∧
      (get_checkout_status db sid st oid now).1.payment_transactions.find?
          (fun t => t.session_id == some sid) =
          some { txn with
                 payment_status := "paid",
                 updated_at := some now } ∧
      get_checkout_status (get_checkout_status db sid st oid now).1 sid st2
          oid2 now2 =
        ((get_checkout_status db sid st oid now).1, st2)) ∧
    (∀ (hmacSha256 : String → String → String) (secret : String) (db : DB)
        (roid rpid : String) (txn : Txn) (oid now oid2 now2 : String),
      db.payment_transactions.find?
          (fun t => t.razorpay_order_id == some roid) = some txn →
      txn.payment_status ≠ "paid" →
      ∃ db1 : DB,
        verify_razorpay_payment hmacSha256 secret db roid rpid
            (hmacSha256 secret (roid ++ "|" ++ rpid)) oid now =
          .ok (db1, "success") ∧
        db1.orders = db.orders ++ [razorpayOrder txn roid rpid oid now] ∧
        db1.payment_transactions.find?
            (fun t => t.razorpay_order_id == some roid) =
          some { txn with
                 payment_status := "paid",
                 razorpay_payment_id := some rpid,
                 updated_at := some now } ∧
        verify_razorpay_payment hmacSha256 secret db1 roid rpid
            (hmacSha256 secret (roid ++ "|" ++ rpid)) oid2 now2 =
          .ok (db1, "success")) ∧
    (∀ (hmacSha256 : String → String → String) (secret : String) (db : DB)
        (sid rpid : String) (st : StripeStatus) (txn : Txn)
        (oid now oid2 now2 : String),
      db.payment_transactions.find?
          (fun t => t.session_id == some sid) = some txn →
      txn.payment_status ≠ "paid" →
      st.payment_status = "paid" →
      (∀ t ∈ db.payment_transactions, t.razorpay_order_id ≠ some sid) →
      verify_razorpay_payment hmacSha256 secret
          (get_checkout_status db sid st oid now).1 sid rpid
          (hmacSha256 secret (sid ++ "|" ++ rpid)) oid2 now2 =
        .ok ((get_checkout_status db sid st oid now).1, "success")) := by
  refine ⟨?_, ?_, ?_⟩
  · intro db sid st st2 txn oid now oid2 now2 hfind hpend hst
    have hrun : (get_checkout_status db sid st oid now).1 =
        clearUserCart txn.user_id
          (insertOrder (stripeOrder txn sid oid now)
            (setTxnPaidStripe sid now db)) := by
      rw [get_checkout_status, hst]
      exact runSeq_pollTrigger_pending hfind hpend oid now
    have hfind1 : (get_checkout_status db sid st oid now).1.payment_transactions.find?
        (fun t => t.session_id == some sid) =
        some { txn with payment_status := "paid", updated_at := some now } := by
      rw [hrun]
      exact find?_after_pollTransition hfind now
    refine ⟨by rw [hrun]; rfl, hfind1, ?_⟩
    rw [get_checkout_status]
    rw [runSeq_pollTrigger_noop hfind1 rfl]
  · intro hmacSha256 secret db roid rpid txn oid now oid2 now2 hfind hpend
    have hfind1 : (clearUserCart txn.user_id
        (insertOrder (razorpayOrder txn roid rpid oid now)
          (setTxnPaidRazorpay roid rpid now db))).payment_transactions.find?
          (fun t => t.razorpay_order_id == some roid) =
        some { txn with
               payment_status := "paid",
               razorpay_payment_id := some rpid,
               updated_at := some now } :=
      find?_after_verifyTransition hfind rpid now
    refine ⟨clearUserCart txn.user_id
        (insertOrder (razorpayOrder txn roid rpid oid now)
          (setTxnPaidRazorpay roid rpid now db)), ?_, rfl, hfind1, ?_⟩
    · rw [verify_razorpay_payment]
      rw [if_neg (by simp)]
      rw [runSeq_verifyTrigger_pending hfind hpend rpid oid now]
    · rw [verify_razorpay_payment]
      rw [if_neg (by simp)]
      rw [runSeq_verifyTrigger_noop hfind1 rfl]
  · intro hmacSha256 secret db sid rpid st txn oid now oid2 now2 hfind hpend hst
    intro hnorp
    have hrun : (get_checkout_status db sid st oid now).1 =
        clearUserCart txn.user_id
          (insertOrder (stripeOrder txn sid oid now)
            (setTxnPaidStripe sid now db)) := by
      rw [get_checkout_status, hst]
      exact runSeq_pollTrigger_pending hfind hpend oid now
    have hnone : (get_checkout_status db sid st oid now).1.payment_transactions.find?
        (fun t => t.razorpay_order_id == some sid) = none := by
      rw [hrun]
      exact @find?_updateOne_none Txn
        (fun t => t.razorpay_order_id == some sid)
        (fun t => t.session_id == some sid)
        (fun t => { t with payment_status := "paid", updated_at := some now })
        db.payment_transactions (fun x => rfl)
        (by rw [List.find?_eq_none]; intro t ht; simpa using hnorp t ht)
    rw [verify_razorpay_payment]
    rw [if_neg (by simp)]
    rw [runSeq_verifyTrigger_nofind hnone rpid oid2 now2]

/-- C1 witness: the three idempotence scenarios instantiated on the
sample store. -/
theorem reconciliation_idempotent_witness :
    ((get_checkout_status sampleRecDB "s1"
        { status := "complete", payment_status := "paid",
          amount_total := 60000, currency := "inr" } "o1" "n1").1.orders =
      sampleRecDB.orders ++ [stripeOrder sampleStripeTxn "s1" "o1" "n1"] ∧
     (get_checkout_status sampleRecDB "s1"
        { status := "complete", payment_status := "paid",
          amount_total := 60000, currency := "inr" }
        "o1" "n1").1.payment_transactions.find?
        (fun t => t.session_id == some "s1") =
      some { sampleStripeTxn with
             payment_status := "paid",
             updated_at := some "n1" } ∧
     get_checkout_status
        (get_checkout_status sampleRecDB "s1"
          { status := "complete", payment_status := "paid",
            amount_total := 60000, currency := "inr" } "o1" "n1").1 "s1"
        { status := "complete", payment_status := "paid",
          amount_total := 60000, currency := "inr" } "o2" "n2" =
      ((get_checkout_status sampleRecDB "s1"
          { status := "complete", payment_status := "paid",
            amount_total := 60000, currency := "inr" } "o1" "n1").1,
       { status := "complete", payment_status := "paid",
         amount_total := 60000, currency := "inr" })) ∧
    (∃ db1 : DB,
      verify_razorpay_payment (fun secret msg => secret ++ ":" ++ msg) "k"
          sampleRecDB "r1" "pay9" "k:r1|pay9" "o3" "n3" =
        .ok (db1, "success") ∧
      db1.orders =
        sampleRecDB.orders ++ [razorpayOrder sampleRpTxn "r1" "pay9" "o3" "n3"] ∧
      db1.payment_transactions.find?
          (fun t => t.razorpay_order_id == some "r1") =
        some { sampleRpTxn with
               payment_status := "paid",
               razorpay_payment_id := some "pay9",
               updated_at := some "n3" } ∧
      verify_razorpay_payment (fun secret msg => secret ++ ":" ++ msg) "k"
          db1 "r1" "pay9" "k:r1|pay9" "o4" "n4" = .ok (db1, "success")) ∧
    verify_razorpay_payment (fun secret msg => secret ++ ":" ++ msg) "k"
        (get_checkout_status sampleRecDB "s1"
          { status := "complete", payment_status := "paid",
            amount_total := 60000, currency := "inr" } "o1" "n1").1 "s1"
        "pay9" "k:s1|pay9" "o5" "n5" =
      .ok ((get_checkout_status sampleRecDB "s1"
            { status := "complete", payment_status := "paid",
              amount_total := 60000, currency := "inr" } "o1" "n1").1,
           "success") :=
  ⟨reconciliation_idempotent.1 sampleRecDB "s1" _ _ sampleStripeTxn "o1" "n1"
      "o2" "n2" (by decide) (by decide) rfl,
   reconciliation_idempotent.2.1 _ "k" sampleRecDB "r1" "pay9" sampleRpTxn
      "o3" "n3" "o4" "n4" (by decide) (by decide),
   reconciliation_idempotent.2.2 (fun secret msg => secret ++ ":" ++ msg)
      "k" sampleRecDB "s1" "pay9"
      { status := "complete", payment_status := "paid",
        amount_total := 60000, currency := "inr" }
      sampleStripeTxn "o1" "n1" "o5" "n5" (by decide) (by decide) rfl
      (by decide)⟩

/-! ## C2: webhook side effects -/

/-- C2 counterexample: the claim is false on the code.  A valid paid
webhook event for a still-pending transaction marks the transaction
paid but creates no Order and leaves the owner's (non-empty) cart
untouched — the webhook does not converge on the side effects of the
poll and verify triggers. -/
theorem webhook_side_effects_counterexample :
    (stripe_webhook sampleRecDB
        { session_id := "s1", payment_status := "paid" }).1.payment_transactions.map
        Txn.payment_status = ["paid", "pending"] ∧
    (stripe_webhook sampleRecDB
        { session_id := "s1", payment_status := "paid" }).1.orders = [] ∧
    (stripe_webhook sampleRecDB
        { session_id := "s1", payment_status := "paid" }).1.carts =
      sampleRecDB.carts ∧
    sampleRecDB.carts.map Cart.items ≠ [[], []] := by
  refine ⟨by decide, by decide, by decide, by decide⟩

/-- C2 (amended): on a valid `paid` webhook event the endpoint performs
only one side effect — an unconditional (not status-guarded) update
setting the transaction's `payment_status` to `paid`, keyed on the
session reference; it creates no Order and touches no cart; on any
other event it changes nothing.  Only the polled-status and
client-proof triggers perform the full transition. -/
theorem webhook_only_updates_status :
    ∀ (db : DB) (wr : WebhookResponse),
      (stripe_webhook db wr).2 = "processed" ∧
      (stripe_webhook db wr).1.orders = db.orders ∧
      (stripe_webhook db wr).1.carts = db.carts ∧
      (wr.payment_status = "paid" →
        (stripe_webhook db wr).1.payment_transactions =
          updateOne (fun t => t.session_id == some wr.session_id)
            (fun t => { t with payment_status := "paid" })
            db.payment_transactions) ∧
      (wr.payment_status ≠ "paid" → (stripe_webhook db wr).1 = db) := by
  intro db wr
  rw [stripe_webhook]
  by_cases h : (wr.payment_status == "paid") = true
  · rw [if_pos h]
    refine ⟨rfl, rfl, rfl, fun _ => rfl, fun hne => absurd (by simpa using h) hne⟩
  · rw [if_neg h]
    exact ⟨rfl, rfl, rfl, fun he => absurd (by simpa using he) (by simpa using h),
           fun _ => rfl⟩

/-- C2 witness: the amended theorem applied to the sample store. -/
theorem webhook_only_updates_status_witness :
    (stripe_webhook sampleRecDB
        { session_id := "s1", payment_status := "paid" }).1.orders =
      sampleRecDB.orders ∧
    (stripe_webhook sampleRecDB
        { session_id := "s1", payment_status := "paid" }).1.carts =
      sampleRecDB.carts ∧
    (stripe_webhook sampleRecDB
        { session_id := "s1", payment_status := "paid" }).1.payment_transactions =
      updateOne (fun t => t.session_id == some "s1")
        (fun t => { t with payment_status := "paid" })
        sampleRecDB.payment_transactions ∧
    (stripe_webhook sampleRecDB
        { session_id := "s1", payment_status := "complete" }).1 = sampleRecDB :=
  ⟨(webhook_only_updates_status sampleRecDB
      { session_id := "s1", payment_status := "paid" }).2.1,
   (webhook_only_updates_status sampleRecDB
      { session_id := "s1", payment_status := "paid" }).2.2.1,
   (webhook_only_updates_status sampleRecDB
      { session_id := "s1", payment_status := "paid" }).2.2.2.1 rfl,
   (webhook_only_updates_status sampleRecDB
      { session_id := "s1", payment_status := "complete" }).2.2.2.2 (by decide)⟩

/-! ## C3: the guard under racing triggers -/

theorem interleave2_nil (db : DB) (p q : Proc) :
    interleave2 [] db p q = db := rfl

theorem interleave2_true_read (s : List Bool) (db : DB) (qr : Txn → Bool)
    (k : Option Txn → Proc) (q : Proc) :
    interleave2 (true :: s) db (.readTxn qr k) q =
      interleave2 s db (k (db.payment_transactions.find? qr)) q := rfl

theorem interleave2_true_write (s : List Bool) (db : DB) (f : DB → DB)
    (k : Proc) (q : Proc) :
    interleave2 (true :: s) db (.write f k) q =
      interleave2 s (f db) k q := rfl

theorem interleave2_false_read (s : List Bool) (db : DB) (p : Proc)
    (qr : Txn → Bool) (k : Option Txn → Proc) :
    interleave2 (false :: s) db p (.readTxn qr k) =
      interleave2 s db p (k (db.payment_transactions.find? qr)) := rfl

theorem interleave2_false_write (s : List Bool) (db : DB) (p : Proc)
    (f : DB → DB) (k : Proc) :
    interleave2 (false :: s) db p (.write f k) =
      interleave2 s (f db) p k := rfl

/-- Scheduling the left poll trigger's read against a still-pending
transaction leaves its three writes to run. -/
theorem interleave2_pollTrigger_left (s : List Bool) {db : DB}
    {sid : String} {txn : Txn}
    (hfind : db.payment_transactions.find?
        (fun t => t.session_id == some sid) = some txn)
    (hpend : txn.payment_status ≠ "paid") (oid now : String) (q : Proc) :
    interleave2 (true :: s) db (pollTrigger sid "paid" oid now) q =
      interleave2 s db
        (.write (setTxnPaidStripe sid now)
          (.write (insertOrder (stripeOrder txn sid oid now))
            (.write (clearUserCart txn.user_id) .done))) q := by
  have hb : (txn.payment_status != "paid") = true := bne_iff_ne.mpr hpend
  rw [pollTrigger, if_pos (by simp), interleave2_true_read, hfind]
  dsimp only
  rw [hb, if_pos rfl]

/-- Scheduling the right poll trigger's read against a still-pending
transaction leaves its three writes to run. -/
theorem interleave2_pollTrigger_right (s : List Bool) {db : DB}
    {sid : String} {txn : Txn}
    (hfind : db.payment_transactions.find?
        (fun t => t.session_id == some sid) = some txn)
    (hpend : txn.payment_status ≠ "paid") (p : Proc) (oid now : String) :
    interleave2 (false :: s) db p (pollTrigger sid "paid" oid now) =
      interleave2 s db p
        (.write (setTxnPaidStripe sid now)
          (.write (insertOrder (stripeOrder txn sid oid now))
            (.write (clearUserCart txn.user_id) .done))) := by
  have hb : (txn.payment_status != "paid") = true := bne_iff_ne.mpr hpend
  rw [pollTrigger, if_pos (by simp), interleave2_false_read, hfind]
  dsimp only
  rw [hb, if_pos rfl]

/-- C3 counterexample: the claim is false on the code.  The guard is a
separate `find_one` read followed by an update keyed on the session
reference alone, so two racing poll triggers for the same session can
both pass it: under the schedule in which both triggers read before
either writes, two Orders are created for the single pending
transaction. -/
theorem guard_not_atomic_counterexample :
    (interleave2 [true, false, true, true, true, false, false, false]
        sampleRecDB
        (pollTrigger "s1" "paid" "o1" "n1")
        (pollTrigger "s1" "paid" "o2" "n2")).orders.length = 2 ∧
    (interleave2 [true, false, true, true, true, false, false, false]
        sampleRecDB
        (pollTrigger "s1" "paid" "o1" "n1")
        (pollTrigger "s1" "paid" "o2" "n2")).orders.map
        Order.payment_session_id = [some "s1", some "s1"] ∧
    sampleRecDB.payment_transactions.map Txn.session_id =
      [some "s1", none] := by
  refine ⟨by decide, by decide, by decide⟩

/-- C3 (amended): the pending→paid guard is not an atomic conditional
update keyed on (sessionRef, status=pending); it is a separate read of
the transaction followed by an unconditional write keyed on the
reference alone.  Consequently, whenever a pending transaction exists,
two racing poll triggers admit an interleaving in which both pass the
guard and two Orders are created for that one transaction. -/
theorem guard_not_atomic :
    ∀ (db : DB) (sid : String) (txn : Txn) (oid1 now1 oid2 now2 : String),
      db.payment_transactions.find?
          (fun t => t.session_id == some sid) = some txn →
      txn.payment_status ≠ "paid" →
      ∃ sched : List Bool,
        (interleave2 sched db (pollTrigger sid "paid" oid1 now1)
            (pollTrigger sid "paid" oid2 now2)).orders =
          db.orders ++ [stripeOrder txn sid oid1 now1,
                        stripeOrder txn sid oid2 now2] := by
  intro db sid txn oid1 now1 oid2 now2 hfind hpend
  refine ⟨[true, false, true, true, true, false, false, false], ?_⟩
  rw [interleave2_pollTrigger_left _ hfind hpend oid1 now1]
  rw [interleave2_pollTrigger_right _ hfind hpend _ oid2 now2]
  rw [interleave2_true_write, interleave2_true_write, interleave2_true_write]
  rw [interleave2_false_write, interleave2_false_write,
    interleave2_false_write]
  rw [interleave2_nil]
  simp [clearUserCart, insertOrder, setTxnPaidStripe]

/-- C3 witness: the amended theorem applied to the sample store. -/
theorem guard_not_atomic_witness :
    ∃ sched : List Bool,
      (interleave2 sched sampleRecDB (pollTrigger "s1" "paid" "o1" "n1")
          (pollTrigger "s1" "paid" "o2" "n2")).orders =
        sampleRecDB.orders ++ [stripeOrder sampleStripeTxn "s1" "o1" "n1",
                               stripeOrder sampleStripeTxn "s1" "o2" "n2"] :=
  guard_not_atomic sampleRecDB "s1" sampleStripeTxn "o1" "n1" "o2" "n2"
    (by decide) (by decide)

/-! ## C8: cart-clear only after order creation -/

theorem traceSeq_readTxn (db : DB) (q : Txn → Bool) (k : Option Txn → Proc) :
    traceSeq db (.readTxn q k) =
      traceSeq db (k (db.payment_transactions.find? q)) := rfl

/-- The intermediate states of the poll trigger on a still-pending
transaction. -/
theorem traceSeq_pollTrigger_pending {db : DB} {sid : String} {txn : Txn}
    (hfind : db.payment_transactions.find?
        (fun t => t.session_id == some sid) = some txn)
    (hpend : txn.payment_status ≠ "paid") (oid now : String) :
    traceSeq db (pollTrigger sid "paid" oid now) =
      [setTxnPaidStripe sid now db,
       insertOrder (stripeOrder txn sid oid now)
         (setTxnPaidStripe sid now db),
       clearUserCart txn.user_id
         (insertOrder (stripeOrder txn sid oid now)
           (setTxnPaidStripe sid now db))] := by
  have hb : (txn.payment_status != "paid") = true := bne_iff_ne.mpr hpend
  rw [pollTrigger, if_pos (by simp), traceSeq_readTxn, hfind]
  dsimp only
  rw [hb, if_pos rfl]
  rfl

/-- The intermediate states of the verify trigger on a still-pending
transaction. -/
theorem traceSeq_verifyTrigger_pending {db : DB} {roid : String} {txn : Txn}
    (hfind : db.payment_transactions.find?
        (fun t => t.razorpay_order_id == some roid) = some txn)
    (hpend : txn.payment_status ≠ "paid") (rpid oid now : String) :
    traceSeq db (verifyTrigger roid rpid oid now) =
      [setTxnPaidRazorpay roid rpid now db,
       insertOrder (razorpayOrder txn roid rpid oid now)
         (setTxnPaidRazorpay roid rpid now db),
       clearUserCart txn.user_id
         (insertOrder (razorpayOrder txn roid rpid oid now)
           (setTxnPaidRazorpay roid rpid now db))] := by
  have hb : (txn.payment_status != "paid") = true := bne_iff_ne.mpr hpend
  rw [verifyTrigger, traceSeq_readTxn, hfind]
  dsimp only
  rw [hb, if_pos rfl]
  rfl

/-- C8: inside one reconciling trigger (poll or verify) started on a
still-pending transaction whose owner's cart is non-empty, every
intermediate store state in which the owner's cart has become empty
already contains the order created by that trigger: the cart is never
observed cleared before the order exists. -/
theorem cart_cleared_only_after_order :
    (∀ (db : DB) (sid : String) (txn : Txn) (c0 : Cart) (oid now : String),
      db.payment_transactions.find?
          (fun t => t.session_id == some sid) = some txn →
      txn.payment_status ≠ "paid" →
      db.carts.find? (fun c => c.user_id == txn.user_id) = some c0 →
      c0.items ≠ [] →
      ∀ s ∈ traceSeq db (pollTrigger sid "paid" oid now),
        (s.carts.find? (fun c => c.user_id == txn.user_id)).map Cart.items =
          some [] →
        oid ∈ s.orders.map Order.id) ∧
    (∀ (db : DB) (roid : String) (txn : Txn) (c0 : Cart)
        (rpid oid now : String),
      db.payment_transactions.find?
          (fun t => t.razorpay_order_id == some roid) = some txn →
      txn.payment_status ≠ "paid" →
      db.carts.find? (fun c => c.user_id == txn.user_id) = some c0 →
      c0.items ≠ [] →
      ∀ s ∈ traceSeq db (verifyTrigger roid rpid oid now),
        (s.carts.find? (fun c => c.user_id == txn.user_id)).map Cart.items =
          some [] →
        oid ∈ s.orders.map Order.id) := by
  constructor
  · intro db sid txn c0 oid now hfind hpend hcart hne
    rw [traceSeq_pollTrigger_pending hfind hpend]
    intro s hs
    simp only [List.mem_cons, List.not_mem_nil, or_false] at hs
    rcases hs with rfl | rfl | rfl
    · intro hempty
      rw [show (setTxnPaidStripe sid now db).carts = db.carts from rfl,
        hcart] at hempty
      simp at hempty
      exact absurd hempty hne
    · intro _
      simp [insertOrder, stripeOrder]
    · intro _
      simp [clearUserCart, insertOrder, stripeOrder]
  · intro db roid txn c0 rpid oid now hfind hpend hcart hne
    rw [traceSeq_verifyTrigger_pending hfind hpend]
    intro s hs
    simp only [List.mem_cons, List.not_mem_nil, or_false] at hs
    rcases hs with rfl | rfl | rfl
    · intro hempty
      rw [show (setTxnPaidRazorpay roid rpid now db).carts = db.carts from rfl,
        hcart] at hempty
      simp at hempty
      exact absurd hempty hne
    · intro _
      simp [insertOrder, razorpayOrder]
    · intro _
      simp [clearUserCart, insertOrder, razorpayOrder]

/-- C8 witness: both triggers instantiated on the sample store. -/
theorem cart_cleared_only_after_order_witness :
    (∀ s ∈ traceSeq sampleRecDB (pollTrigger "s1" "paid" "o1" "n1"),
      (s.carts.find? (fun c => c.user_id == sampleStripeTxn.user_id)).map
          Cart.items = some [] →
      "o1" ∈ s.orders.map Order.id) ∧
    (∀ s ∈ traceSeq sampleRecDB (verifyTrigger "r1" "pay9" "o3" "n3"),
      (s.carts.find? (fun c => c.user_id == sampleRpTxn.user_id)).map
          Cart.items = some [] →
      "o3" ∈ s.orders.map Order.id) :=
  ⟨cart_cleared_only_after_order.1 sampleRecDB "s1" sampleStripeTxn
      { user_id := "u", items := [{ product_id := "p1", quantity := 2 }] }
      "o1" "n1" (by decide) (by decide) (by decide) (by decide),
   cart_cleared_only_after_order.2 sampleRecDB "r1" sampleRpTxn
      { user_id := "v", items := [{ product_id := "p2", quantity := 1 }] }
      "pay9" "o3" "n3" (by decide) (by decide) (by decide) (by decide)⟩

/-! ## C9: review-driven rating aggregation -/

set_option maxRecDepth 10000 in
/-- C9 counterexample: the claim is false on the code.  The aggregation
reads at most the first 1000 matching reviews (`to_list(1000)`): with
1000 prior reviews, creating the 1001st review leaves
`reviews_count = 1000` while the product really has 1001 reviews (the
new review is not aggregated at all). -/
theorem review_cap_counterexample :
    ((create_review sampleManyReviewsDB "u" "U"
        { product_id := "p1", rating := 1, title := "t", comment := "c" }
        "rid" "n").1.reviews.filter
        (fun rv => rv.product_id == "p1")).length = 1001 ∧
    (create_review sampleManyReviewsDB "u" "U"
        { product_id := "p1", rating := 1, title := "t", comment := "c" }
        "rid" "n").1.products.map Product.reviews_count = [1000] := by
  refine ⟨by decide, by decide⟩

/-- C9 (amended): after a review creation, provided the product ends up
with at most 1000 reviews, its stored rating is the arithmetic mean of
all its review ratings rounded to one decimal and `reviews_count` is
the total number of its reviews; beyond 1000 reviews only the first
1000 in insertion order are aggregated (see the counterexample). -/
theorem review_rating_aggregation :
    ∀ (db : DB) (uid uname : String) (r : ReviewCreate)
      (reviewId now : String) (p : Product),
      db.products.find? (fun q => q.id == r.product_id) = some p →
      (reviewsOf db r.product_id).length ≤ 999 →
      (create_review db uid uname r reviewId now).1.products.find?
          (fun q => q.id == r.product_id) =
        some { p with
               rating := pyRound (specMeanRating
                 (create_review db uid uname r reviewId now).1 r.product_id) 1,
               reviews_count :=
                 (reviewsOf (create_review db uid uname r reviewId now).1
                   r.product_id).length } := by
  intro db uid uname r reviewId now p hfindp hlen
  have hid := List.find?_some hfindp
  have hfilter : (db.reviews ++
      [({ id := reviewId, product_id := r.product_id, user_id := uid,
          user_name := uname, rating := r.rating, title := r.title,
          comment := r.comment, created_at := now } : Review)]).filter
      (fun rv => rv.product_id == r.product_id) =
      reviewsOf db r.product_id ++
        [({ id := reviewId, product_id := r.product_id, user_id := uid,
            user_name := uname, rating := r.rating, title := r.title,
            comment := r.comment, created_at := now } : Review)] := by
    rw [List.filter_append]
    simp [reviewsOf]
  have hlen2 : ((db.reviews ++
      [({ id := reviewId, product_id := r.product_id, user_id := uid,
          user_name := uname, rating := r.rating, title := r.title,
          comment := r.comment, created_at := now } : Review)]).filter
      (fun rv => rv.product_id == r.product_id)).length ≤ 1000 := by
    rw [hfilter]
    simp only [List.length_append, List.length_cons, List.length_nil]
    omega
  have htake := List.take_of_length_le hlen2
  simp only [create_review]
  rw [find?_updateOne_self hfindp (by simpa using hid)]
  rw [htake, hfilter]
  have hne : (reviewsOf db r.product_id ++
      [({ id := reviewId, product_id := r.product_id, user_id := uid,
          user_name := uname, rating := r.rating, title := r.title,
          comment := r.comment, created_at := now } : Review)]).isEmpty =
      false := by
    simp
  rw [hne]
  simp [specMeanRating, reviewsOf, hfilter]

/-- C9 witness: a product with prior ratings [5, 5] receiving a rating
4 review ends with rating 4.7 and reviews_count 3. -/
theorem review_rating_aggregation_witness :
    (create_review
        { products := [{ id := "p1", name := "Rose", price := 300,
                         image := "i", size := "50ml", rating := 5,
                         reviews_count := 2 }],
          reviews := [{ id := "rv1", product_id := "p1", user_id := "w",
                        user_name := "W", rating := 5, title := "t",
                        comment := "c", created_at := "c0" },
                      { id := "rv2", product_id := "p1", user_id := "x",
                        user_name := "X", rating := 5, title := "t",
                        comment := "c", created_at := "c1" }] }
        "u" "U" { product_id := "p1", rating := 4, title := "t",
                  comment := "c" } "rid" "n").1.products.find?
        (fun q => q.id == "p1") =
      some { id := "p1", name := "Rose", price := 300, image := "i",
             size := "50ml", rating := 47/10, reviews_count := 3 } := by
  have h := review_rating_aggregation
    { products := [{ id := "p1", name := "Rose", price := 300,
                     image := "i", size := "50ml", rating := 5,
                     reviews_count := 2 }],
      reviews := [{ id := "rv1", product_id := "p1", user_id := "w",
                    user_name := "W", rating := 5, title := "t",
                    comment := "c", created_at := "c0" },
                  { id := "rv2", product_id := "p1", user_id := "x",
                    user_name := "X", rating := 5, title := "t",
                    comment := "c", created_at := "c1" }] }
    "u" "U" { product_id := "p1", rating := 4, title := "t", comment := "c" }
    "rid" "n"
    { id := "p1", name := "Rose", price := 300, image := "i",
      size := "50ml", rating := 5, reviews_count := 2 }
    (by decide) (by decide)
  rw [h]
  have hmean : specMeanRating
      (create_review
        { products := [{ id := "p1", name := "Rose", price := 300,
                         image := "i", size := "50ml", rating := 5,
                         reviews_count := 2 }],
          reviews := [{ id := "rv1", product_id := "p1", user_id := "w",
                        user_name := "W", rating := 5, title := "t",
                        comment := "c", created_at := "c0" },
                      { id := "rv2", product_id := "p1", user_id := "x",
                        user_name := "X", rating := 5, title := "t",
                        comment := "c", created_at := "c1" }] }
        "u" "U" { product_id := "p1", rating := 4, title := "t",
                  comment := "c" } "rid" "n").1 "p1" = 14/3 := by
    rw [specMeanRating]
    norm_num [reviewsOf, create_review, List.filter]
  rw [hmean]
  have hcount : (reviewsOf
      (create_review
        { products := [{ id := "p1", name := "Rose", price := 300,
                         image := "i", size := "50ml", rating := 5,
                         reviews_count := 2 }],
          reviews := [{ id := "rv1", product_id := "p1", user_id := "w",
                        user_name := "W", rating := 5, title := "t",
                        comment := "c", created_at := "c0" },
                      { id := "rv2", product_id := "p1", user_id := "x",
                        user_name := "X", rating := 5, title := "t",
                        comment := "c", created_at := "c1" }] }
        "u" "U" { product_id := "p1", rating := 4, title := "t",
                  comment := "c" } "rid" "n").1 "p1").length = 3 := by
    rw [reviewsOf]
    decide
  rw [hcount]
  have hround : pyRound (14/3) 1 = 47/10 := by
    norm_num [pyRound, roundHalfEven]
  rw [hround]

end Fleur
